import Mathlib

/-!
Verification of the NexoDigital responsive-navigation scripts.

The development shallowly embeds the two JavaScript source files:
`src/unnamed/part_000` (the navigation module) and `src/script.js` (the
"tech" variant).  Pure functions become Lean functions; the stateful
`Navigation` class becomes a state record with an explicit step function
over an event alphabet; timer-based code (`throttle`, `debounce`) becomes
an explicit event-queue simulation over integer millisecond timestamps.
-/

/-- Global configuration of `src/unnamed/part_000` (`CONFIG`), flattened:
only the numeric fields consumed by the embedded code are kept. -/
structure Config where
  animationsDuration : Nat
  animationsStagger : Nat
  throttleDelay : Nat
  debounceDelay : Nat
  breakpointsMobile : Nat
  breakpointsTablet : Nat

/-- The `CONFIG` constant of `src/unnamed/part_000`. -/
def CONFIG : Config :=
  { animationsDuration := 300
    animationsStagger := 50
    throttleDelay := 16
    debounceDelay := 300
    breakpointsMobile := 768
    breakpointsTablet := 1024 }

/-! ## Timing utilities (`throttle`, `debounce`)

The wrappers keep closure state `lastExecTime` / `timeoutId`.  We model the
closure state explicitly and simulate the event loop: calls arrive at
strictly increasing `Date.now()` timestamps (Nat milliseconds); a pending
`setTimeout` whose due time has passed fires before the next call is
processed.  Executions of the wrapped function are recorded as
`(time, argument)` pairs. -/

/-- Closure state of a `throttle` wrapper: `lastExecTime` (initially 0) and
the pending `setTimeout`, recorded as `(dueTime, argument)`. -/
structure ThrottleState where
  lastExecTime : Nat
  pending : Option (Nat × Nat)
deriving Repr, DecidableEq

/-- Initial closure state of `throttle` (`lastExecTime = 0`, no timer). -/
def ThrottleState.init : ThrottleState := { lastExecTime := 0, pending := none }

/-- Fire the pending throttle timer if its due time has arrived by time `t`.
The timer callback runs `func` and sets `lastExecTime = Date.now()`, which
at firing equals the scheduled due time. -/
def throttleFire (s : ThrottleState) (t : Nat) : ThrottleState × List (Nat × Nat) :=
  match s.pending with
  | some (due, a) =>
      if due ≤ t then ({ lastExecTime := due, pending := none }, [(due, a)])
      else (s, [])
  | none => (s, [])

/-- One call of the throttled wrapper at time `t` with argument `a`,
translating the body of `throttle` in `src/unnamed/part_000` lines 26-42:
if `currentTime - lastExecTime > delay` run immediately (the pending timer,
if any, is NOT cleared on this branch), else clear the pending timer and
schedule one at `delay - (currentTime - lastExecTime)` ms from now. -/
def throttleCall (delay : Nat) (s : ThrottleState) (t a : Nat) :
    ThrottleState × List (Nat × Nat) :=
  if t - s.lastExecTime > delay then
    ({ s with lastExecTime := t }, [(t, a)])
  else
    ({ s with pending := some (t + (delay - (t - s.lastExecTime)), a) }, [])

/-- Run a list of timestamped calls through the throttle wrapper, firing any
due pending timer before each call. -/
def throttleRun (delay : Nat) (s : ThrottleState) :
    List (Nat × Nat) → ThrottleState × List (Nat × Nat)
  | [] => (s, [])
  | (t, a) :: rest =>
      let p1 := throttleFire s t
      let p2 := throttleCall delay p1.1 t a
      let p3 := throttleRun delay p2.1 rest
      (p3.1, p1.2 ++ p2.2 ++ p3.2)

/-- Complete simulation: process all calls, then let any remaining pending
timer fire.  Returns the list of `(time, argument)` executions. -/
def throttleSim (delay : Nat) (calls : List (Nat × Nat)) : List (Nat × Nat) :=
  let p := throttleRun delay ThrottleState.init calls
  p.2 ++ (match p.1.pending with
          | some (due, a) => [(due, a)]
          | none => [])

/-- Closure state of a `debounce` wrapper: just the pending timer. -/
structure DebounceState where
  pending : Option (Nat × Nat)
deriving Repr, DecidableEq

/-- Initial closure state of `debounce` (no timer pending). -/
def DebounceState.init : DebounceState := { pending := none }

/-- Fire the pending debounce timer if due by time `t`. -/
def debounceFire (s : DebounceState) (t : Nat) : DebounceState × List (Nat × Nat) :=
  match s.pending with
  | some (due, a) =>
      if due ≤ t then ({ pending := none }, [(due, a)])
      else (s, [])
  | none => (s, [])

/-- One call of the debounced wrapper at time `t` with argument `a`
(`src/unnamed/part_000` lines 44-50): clear the pending timer and schedule
execution `delay` ms from now. -/
def debounceCall (delay : Nat) (_s : DebounceState) (t a : Nat) : DebounceState :=
  { pending := some (t + delay, a) }

/-- Run a list of timestamped calls through the debounce wrapper. -/
def debounceRun (delay : Nat) (s : DebounceState) :
    List (Nat × Nat) → DebounceState × List (Nat × Nat)
  | [] => (s, [])
  | (t, a) :: rest =>
      let p1 := debounceFire s t
      let s2 := debounceCall delay p1.1 t a
      let p3 := debounceRun delay s2 rest
      (p3.1, p1.2 ++ p3.2)

/-- Complete debounce simulation, flushing the final pending timer. -/
def debounceSim (delay : Nat) (calls : List (Nat × Nat)) : List (Nat × Nat) :=
  let p := debounceRun delay DebounceState.init calls
  p.2 ++ (match p.1.pending with
          | some (due, a) => [(due, a)]
          | none => [])

/-! ## Device capability probes

`src/unnamed/part_000` lines 53-59: `isMobile` / `isTablet` are arrow
functions reading `window.innerWidth` at call time, so they are embedded as
functions of the current width.  `src/script.js` lines 54-61: `isMobile` is
a user-agent regex test and `isTablet` a width test, both evaluated once at
module load, so they are embedded as values of the load-time inputs. -/

/-- Capability probe of `src/unnamed/part_000`:
`isMobile = () => window.innerWidth <= CONFIG.breakpoints.mobile`. -/
def isMobile (w : Nat) : Bool := w ≤ CONFIG.breakpointsMobile

/-- Capability probe of `src/unnamed/part_000`:
`isTablet = () => innerWidth > breakpoints.mobile && innerWidth <= breakpoints.tablet`. -/
def isTablet (w : Nat) : Bool :=
  CONFIG.breakpointsMobile < w && w ≤ CONFIG.breakpointsTablet

/-- Case-insensitive character comparison helper used to embed the `/…/i`
regex flag of `src/script.js`. -/
def lowerChars (cs : List Char) : List Char := cs.map Char.toLower

/-- Substring test on character lists: does `hay` contain `pat`? -/
def containsList (pat : List Char) : List Char → Bool
  | [] => pat.isEmpty
  | c :: rest => pat.isPrefixOf (c :: rest) || containsList pat rest

/-- Alternatives of the user-agent regex in `src/script.js` line 55:
`/Android|webOS|iPhone|iPad|iPod|BlackBerry|IEMobile|Opera Mini/i`. -/
def mobileUAPatterns : List (List Char) :=
  ["Android".data, "webOS".data, "iPhone".data, "iPad".data, "iPod".data,
   "BlackBerry".data, "IEMobile".data, "Opera Mini".data]

/-- The `/…/i.test(navigator.userAgent)` probe of `src/script.js`:
`isMobile` there is this value, computed once at module load. -/
def scriptIsMobile (ua : List Char) : Bool :=
  mobileUAPatterns.any (fun p => containsList (lowerChars p) (lowerChars ua))

/-- The `isTablet` field of `src/script.js` line 56, computed once at module
load from the load-time width: `innerWidth >= 768 && innerWidth <= 1024`. -/
def scriptIsTablet (w0 : Nat) : Bool := 768 ≤ w0 && w0 ≤ 1024

/-! ## Strings of numbers: template literals and `parseInt`

`open()` writes `document.body.style.top = ` the template literal
interpolating `-` before `window.scrollY` and `px` after it; `close()`
reads the style back and applies `parseInt(value) * -1`.  Style values are
embedded as character lists. -/

/-- Decimal digit characters of a natural number, most significant first,
as produced by the JavaScript number-to-string conversion for integral
values. -/
def natChars (n : Nat) : List Char :=
  if _h : n < 10 then [Nat.digitChar n]
  else natChars (n / 10) ++ [Nat.digitChar (n % 10)]
  decreasing_by exact Nat.div_lt_self (by omega) (by omega)

/-- Numeric value of a list of decimal digit characters, most significant
first. -/
def digitsVal (cs : List Char) : Nat :=
  cs.foldl (fun a c => a * 10 + (c.toNat - 48)) 0

/-- Maximal leading run of decimal digits, or `none` when there is no
leading digit (`parseInt` would yield `NaN`). -/
def leadingDigits (cs : List Char) : Option Nat :=
  let ds := cs.takeWhile Char.isDigit
  if ds.isEmpty then none else some (digitsVal ds)

/-- JavaScript `parseInt` on a string (radix 10): skip leading whitespace,
accept an optional sign, then read the maximal digit run; `none` models
`NaN`. -/
def jsParseInt (cs : List Char) : Option Int :=
  match cs.dropWhile Char.isWhitespace with
  | [] => none
  | c :: rest =>
      if c = '-' then (leadingDigits rest).map (fun n => -(n : Int))
      else if c = '+' then (leadingDigits rest).map (fun n => (n : Int))
      else (leadingDigits (c :: rest)).map (fun n => (n : Int))

/-! ## The Navigation class (`src/unnamed/part_000` lines 64-333)

State observable by the claims: the `isOpen` flag, the `active` class on
the menu list and toggle button, the four inline body styles written by the
scroll lock, the navbar auto-hide transform, and the window scroll offset.
Each DOM event carries the `window.innerWidth` current at that moment,
since the handlers consult `deviceCapabilities.isMobile()` per call.
`animateLinksIn` and `updateActiveLink` touch only the styles of the menu
items and the `active` class of the nav links, neither of which is part of
this record; the nav-link classes are modelled separately below. -/

/-- Mutable state of a `Navigation` instance together with the DOM it
writes: menu classes, body scroll-lock styles, navbar transform, and the
window scroll offset. -/
structure NavState where
  isOpen : Bool
  navListActive : Bool
  navToggleActive : Bool
  bodyOverflowHidden : Bool
  bodyPositionFixed : Bool
  bodyTop : List Char
  bodyWidthFull : Bool
  navbarHidden : Bool
  lastScrollY : Nat
  scrollY : Nat
deriving Repr, DecidableEq

/-- State right after the constructor ran on a page scrolled to `y0`:
`isOpen = false`, `lastScrollY = 0`, no `active` classes, no inline body
styles, no navbar transform. -/
def initNavState (y0 : Nat) : NavState :=
  { isOpen := false
    navListActive := false
    navToggleActive := false
    bodyOverflowHidden := false
    bodyPositionFixed := false
    bodyTop := []
    bodyWidthFull := false
    navbarHidden := false
    lastScrollY := 0
    scrollY := y0 }

/-- `Navigation.open` (lines 163-180): add the `active` classes, set
`isOpen`, and when the viewport is mobile lock body scroll, recording the
offset in the `top` style.  (`animateLinksIn` only styles the menu items.) -/
def openNav (w : Nat) (s : NavState) : NavState :=
  let s1 := { s with navListActive := true, navToggleActive := true, isOpen := true }
  if isMobile w then
    { s1 with
        bodyOverflowHidden := true
        bodyPositionFixed := true
        bodyTop := '-' :: natChars s1.scrollY ++ ['p', 'x']
        bodyWidthFull := true }
  else s1

/-- `Navigation.close` (lines 182-198): remove the `active` classes, clear
`isOpen`, and when the viewport is mobile clear the body styles and
`window.scrollTo(0, parseInt(top or the string 0) * -1)`; `scrollTo` clamps
negative targets (and `NaN`) to 0. -/
def closeNav (w : Nat) (s : NavState) : NavState :=
  let s1 := { s with navListActive := false, navToggleActive := false, isOpen := false }
  if isMobile w then
    let scrollStr := s1.bodyTop
    let target : Int :=
      match jsParseInt (if scrollStr.isEmpty then ['0'] else scrollStr) with
      | some v => v * (-1)
      | none => 0
    { s1 with
        bodyPositionFixed := false
        bodyTop := []
        bodyOverflowHidden := false
        bodyWidthFull := false
        scrollY := target.toNat }
  else s1

/-- `Navigation.toggle` (lines 155-161). -/
def toggleNav (w : Nat) (s : NavState) : NavState :=
  if s.isOpen then closeNav w s else openNav w s

/-- `Navigation.handleResize` (lines 219-234): close the menu when leaving
the mobile range while open.  (The desktop branch also clears inline menu
item styles, which are not part of this record.) -/
def handleResize (w : Nat) (s : NavState) : NavState :=
  if !isMobile w && s.isOpen then closeNav w s else s

/-- `Navigation.handleScroll` (lines 236-254): the scroll event has already
moved `window.scrollY` to `newY`; past a 10 px delta the navbar is hidden
when scrolling down beyond 100 px and shown when scrolling up, then
`lastScrollY` is replaced.  (`updateActiveLink` only rewrites nav-link
classes, modelled separately.) -/
def handleScroll (newY : Nat) (s : NavState) : NavState :=
  let s1 := { s with scrollY := newY }
  let s2 :=
    if ((newY : Int) - (s1.lastScrollY : Int)).natAbs > 10 then
      if newY > s1.lastScrollY && newY > 100 then { s1 with navbarHidden := true }
      else { s1 with navbarHidden := false }
    else s1
  { s2 with lastScrollY := newY }

/-- Input alphabet of the navigation component.  Every event records the
`window.innerWidth` at the moment it is dispatched; `scroll` also records
the new `window.scrollY`.  `linkClickHash` and `linkClickExternal` are
clicks on a nav link whose `href` does or does not start with `#`;
`outsideClick` is a document click outside the navbar. -/
inductive NavEvent where
  | toggleClick (w : Nat)
  | linkClickHash (w : Nat)
  | linkClickExternal (w : Nat)
  | outsideClick (w : Nat)
  | escapeKey (w : Nat)
  | resize (w : Nat)
  | scroll (w : Nat) (newY : Nat)
deriving Repr, DecidableEq

/-- Viewport width carried by an event. -/
def NavEvent.width : NavEvent → Nat
  | .toggleClick w => w
  | .linkClickHash w => w
  | .linkClickExternal w => w
  | .outsideClick w => w
  | .escapeKey w => w
  | .resize w => w
  | .scroll w _ => w

/-- One dispatch of an event against the handlers bound by `bindEvents`
(lines 95-153).  Link clicks close only when open and mobile (the deferred
`scrollToSection` of a hash link is a later window scroll, i.e. a later
`scroll` event); outside clicks close only when open and mobile; Escape
closes whenever open; resize and scroll run their handlers above. -/
def navStep (s : NavState) : NavEvent → NavState
  | .toggleClick w => toggleNav w s
  | .linkClickHash w => if s.isOpen && isMobile w then closeNav w s else s
  | .linkClickExternal w => if s.isOpen && isMobile w then closeNav w s else s
  | .outsideClick w => if s.isOpen && isMobile w then closeNav w s else s
  | .escapeKey w => if s.isOpen then closeNav w s else s
  | .resize w => handleResize w s
  | .scroll _ newY => handleScroll newY s

/-- Run an event sequence from a given state. -/
def navRun (s : NavState) : List NavEvent → NavState
  | [] => s
  | e :: es => navRun (navStep s e) es

/-- The constructed component (`Navigation.constructor`, lines 65-84): when
the navbar, the toggle button, or the menu list is missing, a warning is
logged and `init()` is skipped, so no event listener is ever bound. -/
structure NavComponent where
  initialized : Bool
  warned : Bool
  state : NavState
deriving Repr, DecidableEq

/-- `new Navigation()` on a document that does or does not contain the
three required elements, scrolled to `y0`. -/
def mkNavigation (hasNavbar hasToggle hasList : Bool) (y0 : Nat) : NavComponent :=
  if !hasNavbar || !hasToggle || !hasList then
    { initialized := false, warned := true, state := initNavState y0 }
  else
    { initialized := true, warned := false, state := initNavState y0 }

/-- Event dispatch against a component: with no listeners bound, an
uninitialized component never reacts. -/
def componentStep (c : NavComponent) (e : NavEvent) : NavComponent :=
  if c.initialized then { c with state := navStep c.state e } else c

/-! ## Active-link determination (`Navigation.updateActiveLink`, lines 280-308) -/

/-- A `section[id]` element: its identifier and geometry.  `offsetTop` and
`offsetHeight` are whole CSS pixels. -/
structure SectionEl where
  id : String
  offsetTop : Int
  offsetHeight : Int
deriving Repr, DecidableEq

/-- Lower bound of the active range of a section:
`section.offsetTop - this.navbar.offsetHeight - 50`. -/
def sectionLow (navH : Int) (s : SectionEl) : Int := s.offsetTop - navH - 50

/-- The scroll test of lines 288-289:
`scrollY >= sectionTop && scrollY < sectionTop + sectionHeight`. -/
def sectionHit (navH scrollY : Int) (s : SectionEl) : Bool :=
  sectionLow navH s ≤ scrollY && scrollY < sectionLow navH s + s.offsetHeight

/-- The `current` accumulator of lines 282-297: the last section whose
range contains `scrollY` wins, and any hit is discarded when
`scrollY < 100`. -/
def computeCurrent (navH scrollY : Int) (sections : List SectionEl) : String :=
  let cur := sections.foldl
    (fun cur s => if sectionHit navH scrollY s then s.id else cur) ""
  if scrollY < 100 then "" else cur

/-- A nav link, identified by its `href` attribute. -/
structure NavLinkEl where
  href : String
deriving Repr, DecidableEq

/-- The per-link class update of lines 299-307: after removing `active`
everywhere, a link is `active` exactly when its `href` is `#` and no
section is current, or `#` followed by the current section id. -/
def linkActive (current : String) (l : NavLinkEl) : Bool :=
  (current = "" && l.href = "#") || (decide (current ≠ "") && l.href = "#" ++ current)

/-- The `href` that `updateActiveLink` marks active for a given `current`. -/
def targetHref (current : String) : String :=
  if current = "" then "#" else "#" ++ current

/-! ## Scroll reveal controller (`ScrollAnimations`, lines 351-366)

The observer callback animates each intersecting entry and unobserves its
target.  We track the set of observed elements and the multiset of
animation triggers; a delivered batch may only contain entries for elements
observed when the batch was captured, at most one entry per element. -/

/-- Observer state: the elements still observed, and every animation
trigger fired so far (with multiplicity). -/
structure RevealState where
  observed : List String
  animated : List String
deriving Repr, DecidableEq

/-- One entry of the callback (lines 359-364): on intersection, animate the
target and unobserve it. -/
def processEntry (s : RevealState) (e : String × Bool) : RevealState :=
  if e.2 then
    { observed := s.observed.erase e.1, animated := s.animated ++ [e.1] }
  else s

/-- One invocation of the observer callback on a batch of entries. -/
def processBatch (s : RevealState) (entries : List (String × Bool)) : RevealState :=
  entries.foldl processEntry s

/-- A whole session: successive callback invocations. -/
def revealRun (s : RevealState) : List (List (String × Bool)) → RevealState
  | [] => s
  | b :: bs => revealRun (processBatch s b) bs

/-- A batch the host can deliver against an observed set: entries only for
observed elements, at most one entry per element. -/
def batchValid (obs : List String) (entries : List (String × Bool)) : Bool :=
  decide (entries.map Prod.fst).Nodup && entries.all (fun e => e.1 ∈ obs)

/-- A deliverable session: each batch valid for the observed set left by
the previous ones. -/
def traceValid (s : RevealState) : List (List (String × Bool)) → Bool
  | [] => true
  | b :: bs => batchValid s.observed b && traceValid (processBatch s b) bs

/-! ## Easing (`Utils.easeInOutQuad`, lines 431-436)

Exact rational arithmetic in place of IEEE doubles, as the claim asks. -/

/-- `Utils.easeInOutQuad(t, b, c, d)`: quadratic ease-in-out, `t` elapsed
time, `b` start value, `c` total change, `d` duration. -/
def easeInOutQuad (t b c d : ℚ) : ℚ :=
  let t1 := t / (d / 2)
  if t1 < 1 then c / 2 * t1 * t1 + b
  else
    let t2 := t1 - 1;
    -c / 2 * (t2 * (t2 - 2) - 1) + b

/-! ## Helper lemmas about digit rendering and parsing -/

theorem digitChar_toNat (d : Nat) (h : d < 10) : (Nat.digitChar d).toNat = 48 + d := by
  interval_cases d <;> rfl

theorem digitChar_isDigit (d : Nat) (h : d < 10) : (Nat.digitChar d).isDigit = true := by
  interval_cases d <;> rfl

theorem natChars_ne_nil (n : Nat) : natChars n ≠ [] := by
  rw [natChars]
  split
  · simp
  · simp

theorem natChars_all_digit (n : Nat) : ∀ c ∈ natChars n, c.isDigit = true := by
  induction n using Nat.strong_induction_on with
  | _ n ih =>
    rw [natChars]
    split
    · intro c hc
      simp at hc
      subst hc
      exact digitChar_isDigit n (by omega)
    · intro c hc
      rw [List.mem_append] at hc
      rcases hc with hc | hc
      · exact ih (n / 10) (Nat.div_lt_self (by omega) (by omega)) c hc
      · simp at hc
        subst hc
        exact digitChar_isDigit (n % 10) (Nat.mod_lt _ (by omega))

theorem digitsVal_append_singleton (xs : List Char) (c : Char) :
    digitsVal (xs ++ [c]) = digitsVal xs * 10 + (c.toNat - 48) := by
  simp [digitsVal, List.foldl_append]

theorem digitsVal_natChars (n : Nat) : digitsVal (natChars n) = n := by
  induction n using Nat.strong_induction_on with
  | _ n ih =>
    rw [natChars]
    split
    · simp [digitsVal, digitChar_toNat n (by omega)]
    · rw [digitsVal_append_singleton, ih (n / 10) (Nat.div_lt_self (by omega) (by omega)),
        digitChar_toNat (n % 10) (Nat.mod_lt _ (by omega))]
      omega

theorem takeWhile_digits_append (l rest : List Char) (hl : ∀ c ∈ l, c.isDigit = true) :
    (l ++ 'p' :: rest).takeWhile Char.isDigit = l := by
  induction l with
  | nil => simp [List.takeWhile]
  | cons c cs ih =>
    have hc : c.isDigit = true := hl c (by simp)
    simp only [List.cons_append, List.takeWhile_cons, hc, if_true]
    rw [ih (fun x hx => hl x (by simp [hx]))]

theorem jsParseInt_cons_neg (l : List Char) :
    jsParseInt ('-' :: l) = (leadingDigits l).map (fun n => -(n : Int)) := by
  unfold jsParseInt
  have hdrop : ('-' :: l).dropWhile Char.isWhitespace = '-' :: l := by
    simp [List.dropWhile_cons]
  rw [hdrop]
  simp

theorem jsParseInt_neg_px (y : Nat) :
    jsParseInt ('-' :: natChars y ++ ['p', 'x']) = some (-(y : Int)) := by
  rw [List.cons_append, jsParseInt_cons_neg]
  have htake : (natChars y ++ ['p', 'x']).takeWhile Char.isDigit = natChars y :=
    takeWhile_digits_append (natChars y) ['x'] (natChars_all_digit y)
  have hne : (natChars y).isEmpty = false := by
    simp [List.isEmpty_iff, natChars_ne_nil y]
  simp [leadingDigits, htake, hne, natChars_ne_nil y, digitsVal_natChars]

/-! ## Claim theorems -/

/-- Claim C10: with exact rational arithmetic, `Utils.easeInOutQuad`
returns the start value `b` at elapsed time 0 and exactly `b + c` at
elapsed time `d`, for every start `b`, distance `c`, and positive
duration `d`. -/
theorem c10_ease_endpoints (b c d : ℚ) (hd : 0 < d) :
    easeInOutQuad 0 b c d = b ∧ easeInOutQuad d b c d = b + c := by
  have hd0 : d ≠ 0 := ne_of_gt hd
  constructor
  · simp [easeInOutQuad]
  · have h2 : d / (d / 2) = 2 := by field_simp
    rw [easeInOutQuad]
    simp only [h2]
    norm_num
    ring

/-- Witness for C10 at `b = 3`, `c = 10`, `d = 2`. -/
theorem c10_ease_witness :
    (0 : ℚ) < 2 ∧ (easeInOutQuad 0 3 10 2 = 3 ∧ easeInOutQuad 2 3 10 2 = 3 + 10) :=
  ⟨by norm_num, c10_ease_endpoints 3 10 2 (by norm_num)⟩

/-- Claim C7: a debounce wrapper with delay 300 ms invoked at t = 0, 50 and
100 ms executes the wrapped function exactly once, at t = 400 ms, with the
arguments of the t = 100 call. -/
theorem c7_debounce_single_execution (a b c : Nat) :
    debounceSim 300 [(0, a), (50, b), (100, c)] = [(400, c)] := rfl

/-- Claim C6, amended: in the navigation module the probe takes the current
width on every call, so it is width-sensitive and `isMobile` / `isTablet`
are mutually exclusive at every width; in `script.js` the probe computes
`isMobile` from the user agent and `isTablet` from the width once at module
load, and both can be true at once. -/
theorem c6_capability_probe_amended :
    (∀ w : Nat, (isMobile w && isTablet w) = false)
    ∧ (∃ w₁ w₂ : Nat, isMobile w₁ ≠ isMobile w₂)
    ∧ (∃ (ua : List Char) (w0 : Nat),
        scriptIsMobile ua = true ∧ scriptIsTablet w0 = true) := by
  refine ⟨?_, ⟨500, 900, by decide⟩,
    ⟨"Mozilla/5.0 (Linux; Android 13; SM-X200)".data, 800, by decide, by decide⟩⟩
  intro w
  simp [isMobile, isTablet, CONFIG, Bool.and_eq_false_iff, decide_eq_false_iff_not,
    decide_eq_true_iff]
  omega

/-- Counterexample to claim C6 as stated: the `script.js` capability probe
(cited by the claim) reports is-mobile and is-tablet simultaneously on an
Android tablet user agent at load width 800, so the two predicates are not
mutually exclusive there. -/
theorem c6_capability_counterexample :
    (scriptIsMobile "Mozilla/5.0 (Linux; Android 13; SM-X200)".data
      && scriptIsTablet 800) = true := by decide

/-- Claim C3, amended: with delay 16 ms and calls at t = 0, 5, 10, 20
(wall-clock offset `T0 > 16`, since `lastExecTime` starts at 0), the
wrapped function executes exactly three times: immediately at t = 0 with
the first arguments, trailing at t = 16 with the t = 10 arguments (the most
recent call when that timer fires), and trailing at t = 32 with the t = 20
arguments. -/
theorem c3_throttle_trace_executions (T0 : Nat) (h : 16 < T0) :
    throttleSim 16 [(T0, 0), (T0 + 5, 5), (T0 + 10, 10), (T0 + 20, 20)] =
      [(T0, 0), (T0 + 16, 10), (T0 + 32, 20)] := by
  norm_num [throttleSim, throttleRun, throttleFire, throttleCall, ThrottleState.init,
    Nat.sub_zero, Nat.add_sub_cancel_left, Nat.add_sub_add_left, Nat.add_assoc,
    Nat.add_le_add_iff_left, h]

/-- Witness for C3 at `T0 = 1000`. -/
theorem c3_throttle_trace_witness :
    16 < 1000 ∧
      throttleSim 16 [(1000, 0), (1000 + 5, 5), (1000 + 10, 10), (1000 + 20, 20)] =
        [(1000, 0), (1000 + 16, 10), (1000 + 32, 20)] :=
  ⟨by norm_num, c3_throttle_trace_executions 1000 (by norm_num)⟩

/-- Counterexample to claim C3 as stated: the same trace yields three
executions of the wrapped function, not exactly two. -/
theorem c3_throttle_counterexample :
    (throttleSim 16 [(1000, 0), (1005, 5), (1010, 10), (1020, 20)]).length = 3
    ∧ ¬ (throttleSim 16 [(1000, 0), (1005, 5), (1010, 10), (1020, 20)]).length = 2 := by
  decide

/-! ## Helper lemmas about the navigation state machine -/

theorem openNav_isOpen (w : Nat) (s : NavState) : (openNav w s).isOpen = true := by
  unfold openNav
  split <;> rfl

theorem closeNav_isOpen (w : Nat) (s : NavState) : (closeNav w s).isOpen = false := by
  unfold closeNav
  split <;> rfl

theorem navStep_classes (s : NavState) (e : NavEvent)
    (h1 : s.navListActive = s.isOpen) (h2 : s.navToggleActive = s.isOpen) :
    (navStep s e).navListActive = (navStep s e).isOpen
    ∧ (navStep s e).navToggleActive = (navStep s e).isOpen := by
  cases e <;>
    simp only [navStep, toggleNav, handleResize, handleScroll, openNav, closeNav] <;>
    split_ifs <;> simp_all

theorem navRun_classes (s : NavState) (events : List NavEvent)
    (h1 : s.navListActive = s.isOpen) (h2 : s.navToggleActive = s.isOpen) :
    (navRun s events).navListActive = (navRun s events).isOpen
    ∧ (navRun s events).navToggleActive = (navRun s events).isOpen := by
  induction events generalizing s with
  | nil => exact ⟨h1, h2⟩
  | cons e es ih =>
      simp only [navRun]
      have hstep := navStep_classes s e h1 h2
      exact ih (navStep s e) hstep.1 hstep.2

theorem navStep_lock (m : Bool) (s : NavState) (e : NavEvent)
    (hw : isMobile e.width = m)
    (h1 : s.bodyOverflowHidden = (s.isOpen && m))
    (h2 : s.bodyPositionFixed = (s.isOpen && m)) :
    (navStep s e).bodyOverflowHidden = ((navStep s e).isOpen && m)
    ∧ (navStep s e).bodyPositionFixed = ((navStep s e).isOpen && m) := by
  cases e <;>
    simp only [navStep, NavEvent.width] at hw ⊢ <;>
    simp only [toggleNav, handleResize, handleScroll, openNav, closeNav] <;>
    split_ifs <;> simp_all

theorem navRun_lock (m : Bool) (s : NavState) (events : List NavEvent)
    (hws : ∀ e ∈ events, isMobile e.width = m)
    (h1 : s.bodyOverflowHidden = (s.isOpen && m))
    (h2 : s.bodyPositionFixed = (s.isOpen && m)) :
    (navRun s events).bodyOverflowHidden = ((navRun s events).isOpen && m)
    ∧ (navRun s events).bodyPositionFixed = ((navRun s events).isOpen && m) := by
  induction events generalizing s with
  | nil => exact ⟨h1, h2⟩
  | cons e es ih =>
      simp only [navRun]
      have hstep := navStep_lock m s e (hws e (by simp)) h1 h2
      exact ih (navStep s e) (fun x hx => hws x (by simp [hx])) hstep.1 hstep.2

/-- Claim C9: from the initial state, every sequence of navigation events
preserves that `isOpen` holds exactly when both the menu list and the
toggle button carry the `active` class; `open()` is the only operation
setting them and `close()` the only one clearing them. -/
theorem c9_isopen_iff_active_classes (y0 : Nat) (events : List NavEvent) :
    (navRun (initNavState y0) events).navListActive
      = (navRun (initNavState y0) events).isOpen
    ∧ (navRun (initNavState y0) events).navToggleActive
      = (navRun (initNavState y0) events).isOpen :=
  navRun_classes (initNavState y0) events rfl rfl

/-- Claim C2: on a mobile viewport, `open()` records the scroll offset `y`
inside the body `top` style, and a subsequent `close()` on a mobile
viewport restores `window.scrollY` to exactly `y`. -/
theorem c2_close_restores_scroll (s : NavState) (w w' : Nat)
    (hw : isMobile w = true) (hw' : isMobile w' = true) :
    (closeNav w' (openNav w s)).scrollY = s.scrollY := by
  simp only [openNav, closeNav, hw, hw', if_true]
  have hne : (('-' :: natChars s.scrollY) ++ ['p', 'x']).isEmpty = false := by simp
  simp only [hne, Bool.false_eq_true, if_false, jsParseInt_neg_px]
  omega

/-- Witness for C2: opening at mobile width 500 on a page scrolled to 250
and closing at mobile width 600 restores offset 250. -/
theorem c2_close_restores_scroll_witness :
    isMobile 500 = true ∧ isMobile 600 = true
    ∧ (closeNav 600 (openNav 500 (initNavState 250))).scrollY = (initNavState 250).scrollY :=
  ⟨by decide, by decide,
    c2_close_restores_scroll (initNavState 250) 500 600 (by decide) (by decide)⟩

/-- Claim C1, amended: the open/closed state alternates on every
toggle-button click; and whenever every event of the sequence occurs at a
width with one fixed mobile classification `m`, the body-scroll lock
(hidden overflow and fixed position) is in effect exactly when the state is
OPEN and `m` is mobile.  (When the classification changes between events
the lock reflects the classification at `open()`/`close()` time, not the
current one, so the claim as stated fails.) -/
theorem c1_toggle_alternation_and_scroll_lock :
    (∀ (s : NavState) (w : Nat), (navStep s (NavEvent.toggleClick w)).isOpen = !s.isOpen)
    ∧ ∀ (y0 : Nat) (m : Bool) (events : List NavEvent),
        (∀ e ∈ events, isMobile e.width = m) →
        ((navRun (initNavState y0) events).bodyOverflowHidden
            = ((navRun (initNavState y0) events).isOpen && m)
        ∧ (navRun (initNavState y0) events).bodyPositionFixed
            = ((navRun (initNavState y0) events).isOpen && m)) := by
  constructor
  · intro s w
    cases ho : s.isOpen <;>
      simp [navStep, toggleNav, ho, openNav_isOpen, closeNav_isOpen]
  · intro y0 m events hws
    exact navRun_lock m (initNavState y0) events hws (by simp [initNavState]) (by simp [initNavState])

/-- Witness for C1 at a mobile-only trace: one toggle at width 500. -/
theorem c1_toggle_alternation_witness :
    (∀ e ∈ [NavEvent.toggleClick 500], isMobile e.width = true)
    ∧ ((navRun (initNavState 0) [NavEvent.toggleClick 500]).bodyOverflowHidden
          = ((navRun (initNavState 0) [NavEvent.toggleClick 500]).isOpen && true)
       ∧ (navRun (initNavState 0) [NavEvent.toggleClick 500]).bodyPositionFixed
          = ((navRun (initNavState 0) [NavEvent.toggleClick 500]).isOpen && true)) :=
  ⟨by decide,
    c1_toggle_alternation_and_scroll_lock.2 0 true [NavEvent.toggleClick 500] (by decide)⟩

/-- Counterexample to claim C1 as stated: toggling open at desktop width
1000 and then resizing to mobile width 500 reaches a state that is OPEN on
a mobile viewport with no body-scroll lock in effect. -/
theorem c1_lock_counterexample :
    (navRun (initNavState 0) [NavEvent.toggleClick 1000, NavEvent.resize 500]).isOpen = true
    ∧ isMobile 500 = true
    ∧ (navRun (initNavState 0)
        [NavEvent.toggleClick 1000, NavEvent.resize 500]).bodyOverflowHidden = false
    ∧ (navRun (initNavState 0)
        [NavEvent.toggleClick 1000, NavEvent.resize 500]).bodyPositionFixed = false := by
  decide

/-- Claim C5: when the navbar, the toggle button, or the menu list is
missing at construction, the constructor logs a warning and skips `init`,
so no listener is bound and every subsequently dispatched event leaves the
component unchanged (no state change, no DOM write, and the total step
function raises nothing). -/
theorem c5_missing_elements_noop (hasNavbar hasToggle hasList : Bool) (y0 : Nat)
    (e : NavEvent)
    (h : hasNavbar = false ∨ hasToggle = false ∨ hasList = false) :
    (mkNavigation hasNavbar hasToggle hasList y0).warned = true
    ∧ (mkNavigation hasNavbar hasToggle hasList y0).initialized = false
    ∧ componentStep (mkNavigation hasNavbar hasToggle hasList y0) e
        = mkNavigation hasNavbar hasToggle hasList y0 := by
  rcases h with h | h | h <;> subst h <;>
    simp [mkNavigation, componentStep]

/-- Witness for C5: a document missing the navbar, with a toggle click
dispatched afterwards. -/
theorem c5_missing_elements_witness :
    (false = false ∨ true = false ∨ true = false)
    ∧ ((mkNavigation false true true 0).warned = true
       ∧ (mkNavigation false true true 0).initialized = false
       ∧ componentStep (mkNavigation false true true 0) (NavEvent.toggleClick 500)
           = mkNavigation false true true 0) :=
  ⟨Or.inl rfl,
    c5_missing_elements_noop false true true 0 (NavEvent.toggleClick 500) (Or.inl rfl)⟩

/-! ## Helper lemmas about active-link determination -/

theorem foldCurrent_acc (navH scrollY : Int) (l : List SectionEl) (acc : String) :
    (l.foldl (fun cur s => if sectionHit navH scrollY s then s.id else cur) acc = acc)
    ∨ ∃ t ∈ l, sectionHit navH scrollY t = true
        ∧ l.foldl (fun cur s => if sectionHit navH scrollY s then s.id else cur) acc = t.id := by
  induction l generalizing acc with
  | nil => left; rfl
  | cons u rest ih =>
      simp only [List.foldl_cons]
      by_cases hu : sectionHit navH scrollY u = true
      · rw [if_pos hu]
        rcases ih u.id with h | ⟨t, ht, hhit, heq⟩
        · right; exact ⟨u, by simp, hu, h⟩
        · right; exact ⟨t, by simp [ht], hhit, heq⟩
      · rw [if_neg (by simpa using hu)]
        rcases ih acc with h | ⟨t, ht, hhit, heq⟩
        · left; exact h
        · right; exact ⟨t, by simp [ht], hhit, heq⟩

theorem foldCurrent_const (navH scrollY : Int) (l : List SectionEl) (v : String)
    (hall : ∀ t ∈ l, sectionHit navH scrollY t = true → t.id = v) :
    l.foldl (fun cur s => if sectionHit navH scrollY s then s.id else cur) v = v := by
  induction l with
  | nil => rfl
  | cons u rest ih =>
      simp only [List.foldl_cons]
      by_cases hu : sectionHit navH scrollY u = true
      · rw [if_pos hu, hall u (by simp) hu]
        exact ih (fun t ht hh => hall t (by simp [ht]) hh)
      · rw [if_neg (by simpa using hu)]
        exact ih (fun t ht hh => hall t (by simp [ht]) hh)

theorem foldCurrent_found (navH scrollY : Int) (t : SectionEl)
    (hhit : sectionHit navH scrollY t = true) :
    ∀ (l : List SectionEl) (acc : String), t ∈ l →
      (∀ u ∈ l, sectionHit navH scrollY u = true → u.id = t.id) →
      l.foldl (fun cur s => if sectionHit navH scrollY s then s.id else cur) acc = t.id := by
  intro l
  induction l with
  | nil => intro acc hmem _; cases hmem
  | cons u rest ih =>
      intro acc hmem huniq
      simp only [List.foldl_cons]
      by_cases hu : sectionHit navH scrollY u = true
      · rw [if_pos hu, huniq u (by simp) hu]
        exact foldCurrent_const navH scrollY rest t.id
          (fun v hv hh => huniq v (by simp [hv]) hh)
      · have htr : t ∈ rest := by
          rcases List.mem_cons.mp hmem with h | h
          · exact absurd (h ▸ hhit) hu
          · exact h
        rw [if_neg (by simpa using hu)]
        exact ih acc htr (fun v hv hh => huniq v (by simp [hv]) hh)

theorem linkActive_eq_target (cur : String) (l : NavLinkEl) :
    linkActive cur l = decide (l.href = targetHref cur) := by
  by_cases hc : cur = ""
  · subst hc; simp [linkActive, targetHref]
  · simp [linkActive, targetHref, hc]

/-- Claim C4: with sections whose hit ranges are disjoint at the current
offset, distinct nonempty identifiers, a section is current exactly when
`scrollY` lies in `[top - navH - 50, top - navH - 50 + height)` (for
`scrollY ≥ 100`); below offset 100 no section is current; and when the
links contain exactly one `href` matching the current target (`#` for the
home state, `#id` otherwise), exactly one link ends up with the `active`
class. -/
theorem c4_active_link_determination (navH scrollY : Int) (sections : List SectionEl)
    (links : List NavLinkEl) (s : SectionEl)
    (hmem : s ∈ sections)
    (hid : ∀ t ∈ sections, t.id ≠ "")
    (hinj : ∀ t ∈ sections, ∀ u ∈ sections, t.id = u.id → t = u)
    (hdisj : ∀ t ∈ sections, ∀ u ∈ sections,
        sectionHit navH scrollY t = true → sectionHit navH scrollY u = true → t = u) :
    (scrollY < 100 → computeCurrent navH scrollY sections = "")
    ∧ (100 ≤ scrollY →
        (computeCurrent navH scrollY sections = s.id ↔ sectionHit navH scrollY s = true))
    ∧ ((links.filter
          (fun l => l.href = targetHref (computeCurrent navH scrollY sections))).length = 1 →
        (links.filter (linkActive (computeCurrent navH scrollY sections))).length = 1) := by
  refine ⟨?_, ?_, ?_⟩
  · intro h
    simp [computeCurrent, h]
  · intro h
    have hnot : ¬ scrollY < 100 := by omega
    have hcc : computeCurrent navH scrollY sections
        = sections.foldl (fun cur t => if sectionHit navH scrollY t then t.id else cur) "" := by
      simp [computeCurrent, hnot]
    rw [hcc]
    constructor
    · intro hfold
      rcases foldCurrent_acc navH scrollY sections "" with hacc | ⟨t, ht, hhit, heq⟩
      · exact absurd (hfold ▸ hacc) (hid s hmem)
      · have hts : t.id = s.id := heq ▸ hfold
        have := hinj t ht s hmem hts
        exact this ▸ hhit
    · intro hhit
      exact foldCurrent_found navH scrollY s hhit sections "" hmem
        (fun u hu hh => congrArg SectionEl.id (hdisj u hu s hmem hh hhit))
  · intro hone
    rw [List.filter_congr (fun l _ => linkActive_eq_target
      (computeCurrent navH scrollY sections) l)]
    exact hone

/-- Witness for C4: two stacked sections, the links `#`, `#about`,
`#services`, navbar height 50, scroll offset 700 (inside the about
section). -/
theorem c4_active_link_witness :
    (⟨"about", 600, 400⟩ : SectionEl) ∈ [(⟨"about", 600, 400⟩ : SectionEl), ⟨"services", 1000, 400⟩]
    ∧ ((700 : Int) < 100 →
        computeCurrent 50 700 [⟨"about", 600, 400⟩, ⟨"services", 1000, 400⟩] = "")
    ∧ (100 ≤ (700 : Int) →
        (computeCurrent 50 700 [⟨"about", 600, 400⟩, ⟨"services", 1000, 400⟩]
            = (⟨"about", 600, 400⟩ : SectionEl).id
          ↔ sectionHit 50 700 ⟨"about", 600, 400⟩ = true))
    ∧ (([(⟨"#"⟩ : NavLinkEl), ⟨"#about"⟩, ⟨"#services"⟩].filter
          (fun l => l.href = targetHref
            (computeCurrent 50 700 [⟨"about", 600, 400⟩, ⟨"services", 1000, 400⟩]))).length = 1 →
        ([(⟨"#"⟩ : NavLinkEl), ⟨"#about"⟩, ⟨"#services"⟩].filter
          (linkActive
            (computeCurrent 50 700 [⟨"about", 600, 400⟩, ⟨"services", 1000, 400⟩]))).length = 1) :=
  ⟨by decide,
    c4_active_link_determination 50 700 [⟨"about", 600, 400⟩, ⟨"services", 1000, 400⟩]
      [⟨"#"⟩, ⟨"#about"⟩, ⟨"#services"⟩] ⟨"about", 600, 400⟩
      (by decide) (by decide) (by decide) (by decide)⟩

/-! ## Helper lemmas about the scroll reveal controller -/

theorem processBatch_inv (entries : List (String × Bool)) :
    ∀ (s : RevealState),
      s.observed.Nodup →
      (∀ x, s.animated.count x ≤ 1) →
      (∀ x ∈ s.observed, s.animated.count x = 0) →
      batchValid s.observed entries = true →
      (processBatch s entries).observed.Nodup
      ∧ (∀ x, (processBatch s entries).animated.count x ≤ 1)
      ∧ (∀ x ∈ (processBatch s entries).observed,
          (processBatch s entries).animated.count x = 0) := by
  induction entries with
  | nil => exact fun s h1 h2 h3 _ => ⟨h1, h2, h3⟩
  | cons e rest ih =>
      rintro s h1 h2 h3 hv
      obtain ⟨t, b⟩ := e
      simp only [batchValid, Bool.and_eq_true, decide_eq_true_eq, List.all_eq_true,
        List.map_cons, List.nodup_cons, List.mem_map, List.mem_cons] at hv
      obtain ⟨⟨hnotin, hndrest⟩, hmem⟩ := hv
      have hrestmem : ∀ e ∈ rest, e.1 ∈ s.observed := fun e he => hmem e (Or.inr he)
      have htmem : t ∈ s.observed := hmem (t, b) (Or.inl rfl)
      cases b with
      | false =>
          have hpe : processEntry s (t, false) = s := by simp [processEntry]
          have hstep : processBatch s ((t, false) :: rest) = processBatch s rest := by
            simp [processBatch, hpe]
          rw [hstep]
          refine ih s h1 h2 h3 ?_
          simp only [batchValid, Bool.and_eq_true, decide_eq_true_eq, List.all_eq_true]
          exact ⟨hndrest, hrestmem⟩
      | true =>
          have hpe : processEntry s (t, true)
              = { observed := s.observed.erase t, animated := s.animated ++ [t] } := by
            simp [processEntry]
          have hstep : processBatch s ((t, true) :: rest)
              = processBatch { observed := s.observed.erase t,
                               animated := s.animated ++ [t] } rest := by
            simp [processBatch, hpe]
          rw [hstep]
          refine ih _ (h1.erase t) ?_ ?_ ?_
          · intro x
            rcases eq_or_ne x t with rfl | hxt
            · simp [List.count_append, h3 x htmem]
            · simp [List.count_append, List.count_cons, hxt, h2 x]
          · intro x hx
            have hx' : x ≠ t ∧ x ∈ s.observed := (h1.mem_erase_iff).mp hx
            simp [List.count_append, List.count_cons, hx'.1, h3 x hx'.2]
          · simp only [batchValid, Bool.and_eq_true, decide_eq_true_eq, List.all_eq_true]
            refine ⟨hndrest, fun e he => ?_⟩
            have hne : e.1 ≠ t := fun hh => hnotin ⟨e, he, hh⟩
            exact (List.mem_erase_of_ne hne).mpr (hrestmem e he)

theorem revealRun_inv (batches : List (List (String × Bool))) :
    ∀ (s : RevealState),
      s.observed.Nodup →
      (∀ x, s.animated.count x ≤ 1) →
      (∀ x ∈ s.observed, s.animated.count x = 0) →
      traceValid s batches = true →
      ∀ x, (revealRun s batches).animated.count x ≤ 1 := by
  induction batches with
  | nil => exact fun s _ h2 _ _ => h2
  | cons b bs ih =>
      rintro s h1 h2 h3 hv
      simp only [traceValid, Bool.and_eq_true] at hv
      obtain ⟨hb, hbs⟩ := hv
      have hinv := processBatch_inv b s h1 h2 h3 hb
      simpa [revealRun] using ih (processBatch s b) hinv.1 hinv.2.1 hinv.2.2 hbs

/-- Claim C8: starting from any duplicate-free observed set, along any
deliverable session of intersection batches every element is animated at
most once — the first intersection animates and unobserves it, and an
unobserved element never appears in a later batch. -/
theorem c8_reveal_at_most_once (obs0 : List String)
    (batches : List (List (String × Bool))) (x : String)
    (hnd : obs0.Nodup)
    (hv : traceValid { observed := obs0, animated := [] } batches = true) :
    (revealRun { observed := obs0, animated := [] } batches).animated.count x ≤ 1 :=
  revealRun_inv batches { observed := obs0, animated := [] } hnd (by simp) (by simp) hv x

/-- Witness for C8: two observed elements, the first animated in batch one,
the second scrolled past without intersecting and animated in batch two. -/
theorem c8_reveal_witness :
    (["a", "b"] : List String).Nodup
    ∧ traceValid { observed := ["a", "b"], animated := [] }
        [[("a", true), ("b", false)], [("b", true)]] = true
    ∧ (revealRun { observed := ["a", "b"], animated := [] }
        [[("a", true), ("b", false)], [("b", true)]]).animated.count "a" ≤ 1 :=
  ⟨by decide, by decide,
    c8_reveal_at_most_once ["a", "b"] [[("a", true), ("b", false)], [("b", true)]] "a"
      (by decide) (by decide)⟩
